import Mathlib

/-!
Verification of the interview-session state machine and the frontend state
transitions of the Al_Interview_App repository.

The backend session store is an external Flask service whose code is not in
the repository snapshot; its operations (start, submit, complete) are
modelled from the specification.  The frontend handlers (startTest,
submitAnswer, completeTest, transcribeAudio in TakeTest.jsx, handleVote in
ok.js, the route guards in App.jsx and the grade badge in
AdminDashboard.jsx) are translated directly from the source.
-/

/-- Modelled from the spec: the error taxonomy of section 7; the backend
Flask service that raises these errors is not part of the source snapshot. -/
inductive SessionError where
  | invalidTest
  | questionGenerationFailure
  | sessionNotFound
  | sessionAlreadyComplete
  | incompleteSession
  | evaluationFailure
  deriving DecidableEq, Repr

/-- Modelled from the spec: the Session record of section 3; the backend
session store is not part of the source snapshot. -/
structure Session where
  questions : List String
  currentIndex : Nat
  score : Nat
  answers : List String
  scores : List Nat
  deriving DecidableEq, Repr

/-- Modelled from the spec: the response of the submit operation, section 6. -/
structure SubmitOk where
  session : Session
  score : Nat
  is_complete : Bool
  next_question : Option String
  question_number : Option Nat
  deriving DecidableEq, Repr

/-- Modelled from the spec: the Result snapshot persisted at completion,
section 3 and section 4.1. -/
structure TestResult where
  questions : List String
  answers : List String
  scores : List Nat
  totalScore : Nat
  percentage : ℚ
  deriving DecidableEq, Repr

/-- Modelled from the spec: the start operation of section 4.1.  The
Question Source is an external collaborator; its outcome is passed in as
an argument (none models an error, a list shorter than the requested
count models a short reply). -/
def start (sourceReply : Option (List String)) (totalQuestions : Nat) :
    Except SessionError Session :=
  if totalQuestions = 0 then Except.error SessionError.invalidTest
  else
    match sourceReply with
    | none => Except.error SessionError.questionGenerationFailure
    | some qs =>
      if qs.length < totalQuestions then
        Except.error SessionError.questionGenerationFailure
      else
        Except.ok { questions := qs.take totalQuestions, currentIndex := 0,
                    score := 0, answers := [], scores := [] }

/-- Modelled from the spec: the session mutation performed by one submit,
section 4.1: append the answer and the verdict, add the verdict to the
score, advance the index. -/
def advance (s : Session) (answerText : String) (verdict : Nat) : Session :=
  { s with answers := s.answers ++ [answerText],
           scores := s.scores ++ [verdict],
           score := s.score + verdict,
           currentIndex := s.currentIndex + 1 }

/-- Modelled from the spec: the submit operation of section 4.1.  The
Answer Evaluator is an external collaborator; its binary verdict is passed
in as an argument. -/
def submit (s : Session) (answerText : String) (verdict : Nat) :
    Except SessionError SubmitOk :=
  if s.currentIndex < s.questions.length then
    if s.currentIndex + 1 = s.questions.length then
      Except.ok { session := advance s answerText verdict, score := verdict,
                  is_complete := true,
                  next_question := none, question_number := none }
    else
      Except.ok { session := advance s answerText verdict, score := verdict,
                  is_complete := false,
                  next_question := some (s.questions.getD (s.currentIndex + 1) ""),
                  question_number := some (s.currentIndex + 2) }
  else Except.error SessionError.sessionAlreadyComplete

/-- Modelled from the spec: the complete operation of section 4.1, which
persists the Result snapshot with totalScore = score and
percentage = 100 * score / totalQuestions. -/
def complete (s : Session) : Except SessionError TestResult :=
  if s.currentIndex = s.questions.length then
    Except.ok { questions := s.questions, answers := s.answers,
                scores := s.scores, totalScore := s.score,
                percentage := 100 * (s.score : ℚ) / (s.questions.length : ℚ) }
  else Except.error SessionError.incompleteSession

/-- One entry of the questionHistory list kept by TakeTest.jsx. -/
structure HistoryEntry where
  question : String
  answer : String
  score : Nat
  deriving DecidableEq, Repr

/-- The React state of the TakeTest component (TakeTest.jsx), restricted to
the fields the verified handlers read or write. -/
structure TakeTestState where
  sessionId : Option String
  testTitle : String
  currentQuestion : String
  questionNumber : Nat
  totalQuestions : Nat
  transcribedText : String
  showControls : Bool
  score : Nat
  isComplete : Bool
  closingMessage : String
  questionHistory : List HistoryEntry
  error : String
  testStarted : Bool
  deriving DecidableEq, Repr

/-- The initial useState values of TakeTest.jsx. -/
def initialTakeTestState : TakeTestState :=
  { sessionId := none, testTitle := "", currentQuestion := "",
    questionNumber := 0, totalQuestions := 0, transcribedText := "",
    showControls := false, score := 0, isComplete := false,
    closingMessage := "", questionHistory := [], error := "",
    testStarted := false }

/-- The JSON body the frontend reads from the start endpoint. -/
structure StartResponse where
  status : String
  session_id : String
  test_title : String
  first_question : String
  total_questions : Nat
  error : String
  deriving DecidableEq, Repr

/-- The startTest handler of TakeTest.jsx applied to a parsed response.
The second component is the navigation target it schedules (the failure
branch navigates back to the candidate dashboard). -/
def startTest (st : TakeTestState) (data : StartResponse) :
    TakeTestState × Option String :=
  if data.status = "success" then
    ({ st with sessionId := some data.session_id,
               testTitle := data.test_title,
               currentQuestion := data.first_question,
               totalQuestions := data.total_questions,
               questionNumber := 1,
               testStarted := true }, none)
  else
    ({ st with error := if data.error = "" then "Failed to start test"
                        else data.error }, some "/candidate")

/-- The JSON body the frontend reads from the submit endpoint. -/
structure SubmitResponse where
  status : String
  score : Nat
  is_complete : Bool
  next_question : String
  question_number : Nat
  error : String
  deriving DecidableEq, Repr

/-- The submitAnswer handler of TakeTest.jsx applied to a parsed response.
On success it adds the verdict to the running score, appends one
question/answer/score entry to questionHistory and clears the
transcription; when the session is not complete it loads the next question
and question number from the response.  On failure it sets the inline
error message. -/
def submitAnswer (st : TakeTestState) (data : SubmitResponse) : TakeTestState :=
  if data.status = "success" then
    let st1 : TakeTestState :=
      { st with score := st.score + data.score,
                questionHistory := st.questionHistory ++
                  [{ question := st.currentQuestion,
                     answer := st.transcribedText,
                     score := data.score }],
                transcribedText := "",
                showControls := false }
    if data.is_complete then st1
    else { st1 with currentQuestion := data.next_question,
                    questionNumber := data.question_number }
  else
    { st with error := if data.error = "" then "Failed to submit answer"
                       else data.error }

/-- The JSON body the frontend reads from the transcribe endpoint. -/
structure TranscribeResponse where
  status : String
  transcription : String
  error : String
  deriving DecidableEq, Repr

/-- The transcribeAudio handler of TakeTest.jsx applied to a parsed
response. -/
def transcribeAudio (st : TakeTestState) (data : TranscribeResponse) :
    TakeTestState :=
  if data.status = "success" then
    { st with transcribedText := data.transcription, showControls := true }
  else
    { st with error := if data.error = "" then "Failed to transcribe audio"
                       else data.error }

/-- The JSON body the frontend reads from the complete endpoint (the nested
result object flattened). -/
structure CompleteResponse where
  status : String
  closing_message : String
  final_score : Nat
  questions : List String
  answers : List String
  scores : List Nat
  error : String
  deriving DecidableEq, Repr

/-- The completeTest handler of TakeTest.jsx applied to a parsed response.
The source has no else branch on the status check: a response whose status
is not success leaves the whole state unchanged (only a thrown network
error would set the error message, which is outside this data path). -/
def completeTest (st : TakeTestState) (data : CompleteResponse) :
    TakeTestState :=
  if data.status = "success" then
    { st with closingMessage := data.closing_message,
              isComplete := true,
              score := data.final_score,
              questionHistory := (List.range data.questions.length).map
                (fun i => { question := data.questions.getD i "",
                            answer := data.answers.getD i "",
                            score := data.scores.getD i 0 }) }
  else st

/-- One feedback aspect of the FeedbackSystem widget (ok.js). -/
structure Aspect where
  id : Nat
  name : String
  upvotes : Nat
  downvotes : Nat
  deriving DecidableEq, Repr

/-- The two computed property names handleVote is called with in ok.js. -/
inductive VoteType where
  | upvotes
  | downvotes
  deriving DecidableEq, Repr

/-- The spread-update of ok.js: copy the aspect and bump the counter named
by the vote type. -/
def applyVote (t : VoteType) (a : Aspect) : Aspect :=
  match t with
  | VoteType.upvotes => { a with upvotes := a.upvotes + 1 }
  | VoteType.downvotes => { a with downvotes := a.downvotes + 1 }

/-- The handleVote function of ok.js: map over the aspect list, bumping the
named counter of every aspect whose id matches. -/
def handleVote (aspects : List Aspect) (id : Nat) (t : VoteType) :
    List Aspect :=
  aspects.map (fun aspect => if aspect.id = id then applyVote t aspect
                             else aspect)

/-- The initialAspects constant of ok.js. -/
def initialAspects : List Aspect :=
  [{ id := 1, name := "Readability", upvotes := 0, downvotes := 0 },
   { id := 2, name := "Performance", upvotes := 0, downvotes := 0 },
   { id := 3, name := "Security", upvotes := 0, downvotes := 0 },
   { id := 4, name := "Documentation", upvotes := 0, downvotes := 0 },
   { id := 5, name := "Testing", upvotes := 0, downvotes := 0 }]

/-- The authentication flags provided by AuthContext and read by the route
guards in App.jsx. -/
structure AuthState where
  isAuthenticated : Bool
  isAdmin : Bool
  isCandidate : Bool
  loading : Bool
  deriving DecidableEq, Repr

/-- What a route guard renders: the loading spinner, a Navigate redirect,
or the protected children. -/
inductive Render where
  | loadingScreen
  | navigate (target : String)
  | children
  deriving DecidableEq, Repr

/-- The AdminRoute guard of App.jsx. -/
def AdminRoute (a : AuthState) : Render :=
  if a.loading then Render.loadingScreen
  else if !a.isAuthenticated then Render.navigate "/login"
  else if !a.isAdmin then Render.navigate "/candidate"
  else Render.children

/-- The CandidateRoute guard of App.jsx. -/
def CandidateRoute (a : AuthState) : Render :=
  if a.loading then Render.loadingScreen
  else if !a.isAuthenticated then Render.navigate "/login"
  else if !a.isCandidate then Render.navigate "/admin"
  else Render.children

/-- The Home redirect component of App.jsx. -/
def Home (a : AuthState) : Render :=
  if a.loading then Render.loadingScreen
  else if !a.isAuthenticated then Render.navigate "/login"
  else if a.isAdmin then Render.navigate "/admin"
  else if a.isCandidate then Render.navigate "/candidate"
  else Render.navigate "/login"

/-- The grade badge of AdminDashboard.jsx: Pass when the percentage is at
least 70, Average when at least 50, Fail otherwise. -/
def gradeBadge (percentage : ℚ) : String :=
  if 70 ≤ percentage then "Pass"
  else if 50 ≤ percentage then "Average"
  else "Fail"

/-- A fresh two-question session, as produced by start. -/
def sessionEx : Session :=
  { questions := ["Q1", "Q2"], currentIndex := 0, score := 0,
    answers := [], scores := [] }

/-- The session after one correct answer. -/
def sessionMidEx : Session :=
  { questions := ["Q1", "Q2"], currentIndex := 1, score := 1,
    answers := ["good answer"], scores := [1] }

/-- The session after a correct and then an incorrect answer. -/
def sessionDoneEx : Session :=
  { questions := ["Q1", "Q2"], currentIndex := 2, score := 1,
    answers := ["good answer", "bad answer"], scores := [1, 0] }

/-- The submit response for the first answer of sessionEx. -/
def submitOkEx : SubmitOk :=
  { session := sessionMidEx, score := 1, is_complete := false,
    next_question := some "Q2", question_number := some 2 }

/-- The Result snapshot of sessionDoneEx. -/
def resultEx : TestResult :=
  { questions := ["Q1", "Q2"], answers := ["good answer", "bad answer"],
    scores := [1, 0], totalScore := 1, percentage := 50 }

/-- A frontend state in the middle of a two-question test. -/
def inProgressState : TakeTestState :=
  { initialTakeTestState with
      sessionId := some "sess-1", testTitle := "React Basics",
      currentQuestion := "Q2", questionNumber := 2, totalQuestions := 2,
      testStarted := true, score := 1,
      questionHistory := [{ question := "Q1", answer := "a1", score := 1 }] }

/-- A successful submit response as seen by the frontend mid-test. -/
def okSubmitResponse : SubmitResponse :=
  { status := "success", score := 1, is_complete := false,
    next_question := "Q3", question_number := 3, error := "" }

/-- A complete response whose status is not success. -/
def failCompleteResponse : CompleteResponse :=
  { status := "error", closing_message := "", final_score := 0,
    questions := [], answers := [], scores := [],
    error := "session not found" }

/-- A submit response whose status is not success. -/
def failSubmitResponse : SubmitResponse :=
  { status := "error", score := 0, is_complete := false,
    next_question := "", question_number := 0, error := "" }

/-- A transcribe response whose status is not success. -/
def failTranscribeResponse : TranscribeResponse :=
  { status := "error", transcription := "", error := "" }

/-- A start response whose status is not success. -/
def failStartResponse : StartResponse :=
  { status := "error", session_id := "", test_title := "",
    first_question := "", total_questions := 0, error := "" }

/-- The second entry of initialAspects. -/
def perfAspect : Aspect :=
  { id := 2, name := "Performance", upvotes := 0, downvotes := 0 }

/-- An authenticated candidate (not admin) as seen by the route guards. -/
def candidateAuth : AuthState :=
  { isAuthenticated := true, isAdmin := false, isCandidate := true,
    loading := false }

/-- Claim C1: after every successful submit the answer history, the score
history and the current question index stay in lockstep: the number of
recorded answers equals the number of recorded per-question scores and
both equal currentIndex, which advanced by one and never exceeds
totalQuestions; in the frontend each successful submit appends exactly one
question/answer/score entry to questionHistory and advances the question
number by one. -/
theorem submit_lockstep_invariant (s : Session) (a : String) (v : Nat)
    (r : SubmitOk)
    (h1 : s.answers.length = s.currentIndex)
    (h2 : s.scores.length = s.currentIndex)
    (h : submit s a v = Except.ok r)
    (st : TakeTestState) (data : SubmitResponse)
    (hs : data.status = "success") :
    (r.session.answers.length = r.session.scores.length ∧
     r.session.scores.length = r.session.currentIndex ∧
     r.session.currentIndex = s.currentIndex + 1 ∧
     r.session.currentIndex ≤ r.session.questions.length) ∧
    (submitAnswer st data).questionHistory.length =
      st.questionHistory.length + 1 ∧
    (data.is_complete = false → data.question_number = st.questionNumber + 1 →
      (submitAnswer st data).questionNumber = st.questionNumber + 1) := by
  unfold submit at h
  by_cases hlt : s.currentIndex < s.questions.length
  · simp only [hlt, if_true] at h
    refine ⟨?_, ?_, ?_⟩
    · split at h <;>
      · cases h
        simp [advance]
        omega
    · unfold submitAnswer
      simp [hs]
      split <;> simp
    · intro hnc hq
      unfold submitAnswer
      simp [hs, hnc, hq]
  · simp [hlt] at h

/-- Witness for submit_lockstep_invariant on the concrete first submit of
a fresh two-question session. -/
theorem submit_lockstep_invariant_witness :
    (sessionEx.answers.length = sessionEx.currentIndex ∧
     sessionEx.scores.length = sessionEx.currentIndex ∧
     submit sessionEx "good answer" 1 = Except.ok submitOkEx ∧
     okSubmitResponse.status = "success") ∧
    submitOkEx.session.answers.length = submitOkEx.session.scores.length ∧
    (submitAnswer inProgressState okSubmitResponse).questionHistory.length =
      inProgressState.questionHistory.length + 1 ∧
    (submitAnswer inProgressState okSubmitResponse).questionNumber =
      inProgressState.questionNumber + 1 := by
  have hmain := submit_lockstep_invariant sessionEx "good answer" 1
    submitOkEx rfl rfl rfl inProgressState okSubmitResponse rfl
  exact ⟨⟨rfl, rfl, rfl, rfl⟩, hmain.1.1, hmain.2.1, hmain.2.2 rfl rfl⟩

/-- Claim C2: the accumulated score always equals the sum of the recorded
per-question verdicts: each submit adds the binary verdict to the running
score (in the backend session and in the frontend state), and the
totalScore of the Result produced at completion equals the sum of the
scores list. -/
theorem score_eq_sum_scores (s : Session) (a : String) (v : Nat)
    (r : SubmitOk)
    (hsum : s.score = s.scores.sum)
    (h : submit s a v = Except.ok r)
    (st : TakeTestState) (data : SubmitResponse)
    (hd : data.status = "success") :
    r.session.score = r.session.scores.sum ∧
    r.session.score = s.score + v ∧
    r.score = v ∧
    (∀ res : TestResult, complete r.session = Except.ok res →
      res.totalScore = r.session.scores.sum) ∧
    (submitAnswer st data).score = st.score + data.score := by
  unfold submit at h
  by_cases hlt : s.currentIndex < s.questions.length
  · simp only [hlt, if_true] at h
    have hmain : r.session.score = r.session.scores.sum ∧
        r.session.score = s.score + v ∧ r.score = v := by
      split at h <;>
      · cases h
        simp [advance, hsum]
    refine ⟨hmain.1, hmain.2.1, hmain.2.2, ?_, ?_⟩
    · intro res hres
      unfold complete at hres
      split at hres
      · cases hres
        simp [← hmain.1]
      · cases hres
    · unfold submitAnswer
      simp [hd]
      split <;> simp
  · simp [hlt] at h

/-- Witness for score_eq_sum_scores on the concrete first submit of a
fresh two-question session. -/
theorem score_eq_sum_scores_witness :
    (sessionEx.score = sessionEx.scores.sum ∧
     submit sessionEx "good answer" 1 = Except.ok submitOkEx ∧
     okSubmitResponse.status = "success") ∧
    submitOkEx.session.score = submitOkEx.session.scores.sum ∧
    (submitAnswer inProgressState okSubmitResponse).score =
      inProgressState.score + okSubmitResponse.score := by
  have hmain := score_eq_sum_scores sessionEx "good answer" 1 submitOkEx
    rfl rfl inProgressState okSubmitResponse rfl
  exact ⟨⟨rfl, rfl, rfl⟩, hmain.1, hmain.2.2.2.2⟩

/-- Claim C3: at completion of a session with totalQuestions greater than
zero, the percentage of the Result equals 100 times totalScore divided by
totalQuestions (so totalScore 1 of 2 questions yields percentage 50). -/
theorem complete_percentage (s : Session) (res : TestResult)
    (h : complete s = Except.ok res)
    (hq : 0 < s.questions.length) :
    res.percentage = 100 * (res.totalScore : ℚ) / (res.questions.length : ℚ) ∧
    res.percentage * (res.questions.length : ℚ) = 100 * (res.totalScore : ℚ) ∧
    res.totalScore = s.score ∧
    res.questions.length = s.questions.length := by
  unfold complete at h
  split at h
  · cases h
    have hne : ((s.questions.length : ℚ)) ≠ 0 := by
      have : s.questions.length ≠ 0 := Nat.pos_iff_ne_zero.mp hq
      exact_mod_cast this
    refine ⟨by simp, ?_, rfl, rfl⟩
    simp only
    field_simp
  · cases h

/-- Witness for complete_percentage on the finished two-question session
with one correct answer: percentage 50. -/
theorem complete_percentage_witness :
    (complete sessionDoneEx = Except.ok resultEx ∧
     0 < sessionDoneEx.questions.length) ∧
    resultEx.percentage =
      100 * (resultEx.totalScore : ℚ) / (resultEx.questions.length : ℚ) ∧
    resultEx.percentage = 50 := by
  have hc : complete sessionDoneEx = Except.ok resultEx := by
    simp [complete, sessionDoneEx, resultEx]
    norm_num
  have hmain := complete_percentage sessionDoneEx resultEx hc (by simp [sessionDoneEx])
  exact ⟨⟨hc, by simp [sessionDoneEx]⟩, hmain.1, rfl⟩

/-- Claim C4: submit on a session whose currentIndex already equals
totalQuestions is rejected with SessionAlreadyComplete and never returns a
successful result, so the answers and scores sequences cannot grow. -/
theorem submit_already_complete (s : Session) (a : String) (v : Nat)
    (h : s.currentIndex = s.questions.length) :
    submit s a v = Except.error SessionError.sessionAlreadyComplete ∧
    ∀ r : SubmitOk, submit s a v ≠ Except.ok r := by
  have hnlt : ¬ s.currentIndex < s.questions.length := by omega
  refine ⟨?_, ?_⟩
  · unfold submit
    simp [hnlt]
  · intro r hr
    unfold submit at hr
    simp [hnlt] at hr

/-- Witness for submit_already_complete on the finished two-question
session. -/
theorem submit_already_complete_witness :
    sessionDoneEx.currentIndex = sessionDoneEx.questions.length ∧
    submit sessionDoneEx "extra answer" 1 =
      Except.error SessionError.sessionAlreadyComplete := by
  exact ⟨rfl, (submit_already_complete sessionDoneEx "extra answer" 1 rfl).1⟩

/-- Claim C5: complete on a session whose currentIndex is strictly below
totalQuestions fails with IncompleteSession and never produces a Result. -/
theorem complete_incomplete_session (s : Session)
    (h : s.currentIndex < s.questions.length) :
    complete s = Except.error SessionError.incompleteSession ∧
    ∀ res : TestResult, complete s ≠ Except.ok res := by
  have hne : s.currentIndex ≠ s.questions.length := Nat.ne_of_lt h
  refine ⟨?_, ?_⟩
  · unfold complete
    simp [hne]
  · intro res hr
    unfold complete at hr
    simp [hne] at hr

/-- Witness for complete_incomplete_session on the half-finished
two-question session. -/
theorem complete_incomplete_session_witness :
    sessionMidEx.currentIndex < sessionMidEx.questions.length ∧
    complete sessionMidEx = Except.error SessionError.incompleteSession := by
  exact ⟨by decide,
    (complete_incomplete_session sessionMidEx (by decide)).1⟩

/-- Claim C6: when the Question Source errors or returns fewer questions
than requested, start fails with QuestionGenerationFailure and no Session
is produced; the frontend startTest failure branch keeps testStarted
unchanged (so no started-test state is entered), sets an inline error and
navigates back to the candidate dashboard. -/
theorem start_question_generation_failure (qs : List String) (n : Nat)
    (hn : 0 < n) (hshort : qs.length < n)
    (st : TakeTestState) (data : StartResponse)
    (hd : data.status ≠ "success") :
    start none n = Except.error SessionError.questionGenerationFailure ∧
    start (some qs) n = Except.error SessionError.questionGenerationFailure ∧
    (∀ s : Session, start none n ≠ Except.ok s) ∧
    (∀ s : Session, start (some qs) n ≠ Except.ok s) ∧
    (startTest st data).1.testStarted = st.testStarted ∧
    (startTest st data).1.error ≠ "" ∧
    (startTest st data).2 = some "/candidate" := by
  have hn0 : n ≠ 0 := Nat.pos_iff_ne_zero.mp hn
  have hfr : (startTest st data).1.testStarted = st.testStarted ∧
      (startTest st data).1.error ≠ "" ∧
      (startTest st data).2 = some "/candidate" := by
    unfold startTest
    simp [hd]
    split <;> simp_all
  refine ⟨?_, ?_, ?_, ?_, hfr.1, hfr.2.1, hfr.2.2⟩
  · unfold start; simp [hn0]
  · unfold start; simp [hn0, hshort]
  · intro s hs; unfold start at hs; simp [hn0] at hs
  · intro s hs; unfold start at hs; simp [hn0, hshort] at hs

/-- Witness for start_question_generation_failure: a failing source and a
one-question reply to a two-question request, with the frontend on the
initial state. -/
theorem start_question_generation_failure_witness :
    ((0 : Nat) < 2 ∧ (["Q1"] : List String).length < 2 ∧
     failStartResponse.status ≠ "success") ∧
    start none 2 = Except.error SessionError.questionGenerationFailure ∧
    start (some ["Q1"]) 2 =
      Except.error SessionError.questionGenerationFailure ∧
    (startTest initialTakeTestState failStartResponse).1.testStarted = false ∧
    (startTest initialTakeTestState failStartResponse).2 =
      some "/candidate" := by
  have hmain := start_question_generation_failure ["Q1"] 2 (by decide)
    (by decide) initialTakeTestState failStartResponse (by decide)
  exact ⟨⟨by decide, by decide, by decide⟩, hmain.1, hmain.2.1,
    hmain.2.2.2.2.1, hmain.2.2.2.2.2.2⟩

/-- Claim C7: the completeTest handler of TakeTest.jsx has no failure
branch for a response whose status is not success: such a response leaves
the entire component state unchanged and in particular surfaces no inline
error message, unlike the start, transcribe and submit handlers, which all
set one on a failed status. -/
theorem completeTest_silent_on_error_status :
    completeTest inProgressState failCompleteResponse = inProgressState ∧
    (completeTest inProgressState failCompleteResponse).error = "" ∧
    (submitAnswer inProgressState failSubmitResponse).error =
      "Failed to submit answer" ∧
    (transcribeAudio inProgressState failTranscribeResponse).error =
      "Failed to transcribe audio" ∧
    (startTest inProgressState failStartResponse).1.error =
      "Failed to start test" := by
  exact ⟨rfl, rfl, rfl, rfl, rfl⟩

/-- Claim C8: handleVote of ok.js increments exactly the counter named by
the vote type on every aspect whose id matches, leaving that aspect's
other counter, id and name untouched; every aspect whose id differs is
returned unchanged, and when no aspect carries the id the list is
identical. -/
theorem handleVote_frame (l : List Aspect) (id : Nat) (t : VoteType) :
    (handleVote l id t).length = l.length ∧
    (∀ i : Nat, ∀ a : Aspect, l[i]? = some a →
      (handleVote l id t)[i]? =
        some (if a.id = id then applyVote t a else a)) ∧
    ((∀ a ∈ l, a.id ≠ id) → handleVote l id t = l) ∧
    (∀ a : Aspect,
      (applyVote VoteType.upvotes a).upvotes = a.upvotes + 1 ∧
      (applyVote VoteType.upvotes a).downvotes = a.downvotes ∧
      (applyVote VoteType.upvotes a).id = a.id ∧
      (applyVote VoteType.upvotes a).name = a.name ∧
      (applyVote VoteType.downvotes a).downvotes = a.downvotes + 1 ∧
      (applyVote VoteType.downvotes a).upvotes = a.upvotes ∧
      (applyVote VoteType.downvotes a).id = a.id ∧
      (applyVote VoteType.downvotes a).name = a.name) := by
  refine ⟨?_, ?_, ?_, ?_⟩
  · simp [handleVote]
  · intro i a ha
    simp [handleVote, List.getElem?_map, ha]
  · intro hnone
    unfold handleVote
    induction l with
    | nil => rfl
    | cons x xs ih =>
      simp only [List.map_cons]
      rw [if_neg (hnone x (by simp)), ih]
      intro b hb
      exact hnone b (by simp [hb])
  · intro a
    simp [applyVote]

/-- Witness for handleVote_frame: upvoting aspect 2 of the initial list
bumps exactly the Performance upvote counter. -/
theorem handleVote_frame_witness :
    initialAspects[1]? = some perfAspect ∧
    (handleVote initialAspects 2 VoteType.upvotes)[1]? =
      some (if perfAspect.id = 2 then applyVote VoteType.upvotes perfAspect
            else perfAspect) ∧
    (if perfAspect.id = 2 then applyVote VoteType.upvotes perfAspect
     else perfAspect) =
      { id := 2, name := "Performance", upvotes := 1, downvotes := 0 } := by
  exact ⟨rfl,
    (handleVote_frame initialAspects 2 VoteType.upvotes).2.1 1 perfAspect rfl,
    rfl⟩

/-- Claim C9: the route guards of App.jsx are total over the
authentication state: once loading is over, an unauthenticated user is
redirected to /login by every guard, an authenticated non-admin asking for
an admin route goes to /candidate, an authenticated non-candidate asking
for a candidate route goes to /admin, the home route sends an
authenticated user with neither role to /login, and the protected
children render exactly when the required role holds. -/
theorem route_guards_total (a : AuthState) (h : a.loading = false) :
    (a.isAuthenticated = false →
      AdminRoute a = Render.navigate "/login" ∧
      CandidateRoute a = Render.navigate "/login" ∧
      Home a = Render.navigate "/login") ∧
    (a.isAuthenticated = true → a.isAdmin = false →
      AdminRoute a = Render.navigate "/candidate") ∧
    (a.isAuthenticated = true → a.isCandidate = false →
      CandidateRoute a = Render.navigate "/admin") ∧
    (a.isAuthenticated = true → a.isAdmin = false → a.isCandidate = false →
      Home a = Render.navigate "/login") ∧
    (AdminRoute a = Render.children ↔
      a.isAuthenticated = true ∧ a.isAdmin = true) ∧
    (CandidateRoute a = Render.children ↔
      a.isAuthenticated = true ∧ a.isCandidate = true) := by
  obtain ⟨au, ad, ac, lo⟩ := a
  simp only at h
  subst h
  cases au <;> cases ad <;> cases ac <;>
    simp [AdminRoute, CandidateRoute, Home]

/-- Witness for route_guards_total: an authenticated candidate asking for
the admin route is redirected to the candidate dashboard, and the
candidate route renders its children. -/
theorem route_guards_total_witness :
    candidateAuth.loading = false ∧
    AdminRoute candidateAuth = Render.navigate "/candidate" ∧
    CandidateRoute candidateAuth = Render.children := by
  have hmain := route_guards_total candidateAuth rfl
  exact ⟨rfl, hmain.2.1 rfl rfl, hmain.2.2.2.2.2.mpr ⟨rfl, rfl⟩⟩

/-- Claim C10: the grade badge of AdminDashboard.jsx is a total three-way
partition of the percentage: Pass exactly when the percentage is at least
70, Average exactly when it is at least 50 and below 70, Fail exactly when
it is below 50. -/
theorem gradeBadge_partition (p : ℚ) :
    (gradeBadge p = "Pass" ↔ 70 ≤ p) ∧
    (gradeBadge p = "Average" ↔ 50 ≤ p ∧ p < 70) ∧
    (gradeBadge p = "Fail" ↔ p < 50) := by
  unfold gradeBadge
  split_ifs with h1 h2 <;> simp_all <;> linarith
